import Mathlib

/-!
# Verification of `p2v_transfer.py`

A shallow embedding of the physical-to-virtual transfer script
`p2v-transfer/p2v_transfer.py` (Python 2), together with theorems that
settle the specification's claims about it.

Conventions of the embedding:

* Python exceptions are modelled by `PyExc`; fallible code returns
  `Except PyExc α`.
* The outside world (exit statuses of remote commands, success of local
  subprocesses, command output strings, the local filesystem) is passed in
  explicitly as parameters, so every definition is a pure, executable
  function of the run's environment.
* Python 2 integers are `Int`; `//`-style floor division of Python 2's `/`
  on ints is `Int.fdiv`, and `int(someFloat)` truncation toward zero is
  `Int.tdiv`.
-/

set_option autoImplicit false

namespace P2VTransfer

/-- `TARGET_MOUNT = "/target"` from the script. -/
def TARGET_MOUNT : String := "/target"

/-- `SOURCE_MOUNT = "/source"` from the script. -/
def SOURCE_MOUNT : String := "/source"

/-- The exceptions that can cross function boundaries in the script.
`p2v` is the script's own `P2VError` (carrying its message string);
`systemExit` is `sys.exit(code)`; `sshError` stands for the
paramiko/socket exceptions of a failed `connect`; `valueError`,
`indexError` and `nameError` are the corresponding Python built-ins. -/
inductive PyExc where
  | p2v (msg : String)
  | systemExit (code : Nat)
  | sshError
  | valueError
  | indexError
  | nameError
  deriving DecidableEq, Repr

/-- The message format of `_RunCommandAndWait`'s `P2VError`:
`"Remote command returned nonzero exit status: %s" % command`.
Note that only the command is interpolated; the exit status is not. -/
def remoteFailMsg (command : String) : String :=
  "Remote command returned nonzero exit status: " ++ command

/-- `_RunCommandAndWait(client, command)`: runs `command` remotely and
raises `P2VError` when the received exit status is nonzero. The exit
status delivered by the channel is an explicit parameter. -/
def runCommandAndWait (command : String) (exitStatus : Int) : Except PyExc Unit :=
  if exitStatus ≠ 0 then Except.error (PyExc.p2v (remoteFailMsg command)) else Except.ok ()

/-- The command string sent by `CleanUpTarget`:
`"umount %s ; rmdir %s" % (TARGET_MOUNT, TARGET_MOUNT)`. -/
def cleanupCommand : String :=
  "umount " ++ TARGET_MOUNT ++ " ; rmdir " ++ TARGET_MOUNT

/-- `CleanUpTarget(client)` as a function of the exit status the remote
shell reports for `cleanupCommand` (with `;`, that is the status of the
last sub-command, `rmdir`). -/
def cleanUpTargetCmd (exitStatus : Int) : Except PyExc Unit :=
  runCommandAndWait cleanupCommand exitStatus

/-- State of the target host relevant to `CleanUpTarget`: whether
`/dev/xvda1` is mounted at `TARGET_MOUNT`, and whether the `TARGET_MOUNT`
directory exists. -/
structure TargetState where
  mounted : Bool
  dirExists : Bool
  deriving DecidableEq, Repr

/-- Shell `umount TARGET_MOUNT`: succeeds (status 0) exactly when the
target path is mounted, and unmounts it; exits nonzero (status 32,
as `umount` does) when nothing is mounted there. -/
def shellUmount (s : TargetState) : TargetState × Int :=
  if s.mounted then ({ s with mounted := false }, 0) else (s, 32)

/-- Shell `rmdir TARGET_MOUNT`: succeeds exactly when the directory
exists and is not a live mount point, and removes it; exits nonzero
otherwise (absent directory, or busy mount point). -/
def shellRmdir (s : TargetState) : TargetState × Int :=
  if s.dirExists && !s.mounted then ({ s with dirExists := false }, 0) else (s, 1)

/-- `CleanUpTarget` run against a concrete target state: the remote shell
executes `umount TARGET_MOUNT ; rmdir TARGET_MOUNT`. With `;` both
sub-commands always run, and the chain's exit status — the one
`_RunCommandAndWait` checks — is the status of the final `rmdir`. -/
def cleanUpTargetState (s : TargetState) : TargetState × Except PyExc Unit :=
  let (s1, _) := shellUmount s
  let (s2, rmdirStatus) := shellRmdir s1
  (s2, cleanUpTargetCmd rmdirStatus)

/-- The `other_commands` list of `PartitionTargetDisks`. -/
def otherCommands : List String :=
  ["mkfs.ext3 /dev/xvda1",
   "mkswap /dev/xvda2",
   "mkdir -p " ++ TARGET_MOUNT,
   "mount /dev/xvda1 " ++ TARGET_MOUNT]

/-- `" && ".join(other_commands)`: the combined format/mount chain. -/
def chainCommand : String := String.intercalate " && " otherCommands

/-- The heredoc `sfdisk` command of `PartitionTargetDisks`, with
`nonswap_megs` interpolated for `%d`. -/
def sfdiskCommand (nonswapMegs : Int) : String :=
  "sfdisk -uM /dev/xvda <<EOF\n0," ++ toString nonswapMegs ++ ",83\n,,82\nEOF\n"

/-- Exit statuses the remote shell reports to `PartitionTargetDisks`:
for the `sfdisk` command, for the first and (if reached) second
execution of the combined chain, and for the cleanup chain run between
them. -/
structure PartEnv where
  sfdiskStatus : Int
  chainStatus1 : Int
  cleanupStatus : Int
  chainStatus2 : Int
  deriving DecidableEq, Repr

/-- Observable outcome of `PartitionTargetDisks`: the result (normal
return or escaped exception), how many times the combined chain was
executed, and how many times `CleanUpTarget` ran. -/
structure PartTrace where
  result : Except PyExc Unit
  chainAttempts : Nat
  cleanupRuns : Nat
  deriving Repr

/-- `PartitionTargetDisks(client, total_megs, swap_megs)`: sends the
`sfdisk` command, then the combined chain; on a `P2VError` from the
chain it runs `CleanUpTarget` and retries the identical chain once.
Any exception from `sfdisk` or from the cleanup itself propagates
unhandled (the `try` only wraps the first chain execution). -/
def partitionTargetDisks (totalMegs swapMegs : Int) (env : PartEnv) : PartTrace :=
  let nonswapMegs := totalMegs - swapMegs
  match runCommandAndWait (sfdiskCommand nonswapMegs) env.sfdiskStatus with
  | Except.error e => ⟨Except.error e, 0, 0⟩
  | Except.ok () =>
    match runCommandAndWait chainCommand env.chainStatus1 with
    | Except.ok () => ⟨Except.ok (), 1, 0⟩
    | Except.error (PyExc.p2v _) =>
      match cleanUpTargetCmd env.cleanupStatus with
      | Except.error e => ⟨Except.error e, 1, 1⟩
      | Except.ok () => ⟨runCommandAndWait chainCommand env.chainStatus2, 2, 1⟩
    | Except.error e => ⟨Except.error e, 1, 0⟩

/-- Python's whitespace set for `str.strip()` and no-separator
`str.split()`. -/
def pyIsSpace (c : Char) : Bool :=
  c = ' ' || c = '\t' || c = '\n' || c = '\r' || c = '\x0b' || c = '\x0c'

/-- Split a character list at every separator character, keeping empty
pieces, as Python `str.split(sep)` does. -/
def splitChars (p : Char → Bool) : List Char → List (List Char)
  | [] => [[]]
  | c :: cs =>
    if p c then [] :: splitChars p cs
    else
      match splitChars p cs with
      | [] => [[c]]
      | w :: ws => (c :: w) :: ws

/-- Python `str.strip()`: remove leading and trailing whitespace. -/
def pyStrip (s : String) : String :=
  String.mk (((s.data.dropWhile pyIsSpace).reverse.dropWhile pyIsSpace).reverse)

/-- Python `str.splitlines()` for the newline-separated command output
handled here: split on newline, dropping the trailing empty piece a
final newline would otherwise create (so an empty string yields no
lines). -/
def pySplitlines (s : String) : List String :=
  let parts := (splitChars (fun c => c = '\n') s.data).map String.mk
  if parts.getLast? = some "" then parts.dropLast else parts

/-- Python `str.split()` with no separator: split on whitespace runs,
discarding empty pieces. -/
def pySplitWs (s : String) : List String :=
  ((splitChars pyIsSpace s.data).filter (fun w => w ≠ [])).map String.mk

/-- Value of a decimal digit sequence. -/
def digitsVal (ds : List Char) : Nat :=
  ds.foldl (fun n c => 10 * n + (c.toNat - 48)) 0

/-- Python `int(token)` on a string: after stripping surrounding
whitespace, an optional sign followed by at least one decimal digit,
otherwise `ValueError` (`none`). -/
def pyInt (s : String) : Option Int :=
  let t := (pyStrip s).data
  let (sign, digits) :=
    match t with
    | '-' :: ds => ((-1 : Int), ds)
    | '+' :: ds => ((1 : Int), ds)
    | ds => ((1 : Int), ds)
  if !digits.isEmpty && digits.all Char.isDigit then
    some (sign * (digitsVal digits : Int))
  else
    none

/-- Python `int(n * 0.1)` for an int `n`. The IEEE-754 double closest
to `0.1` is `3602879701896397 / 2 ^ 55` (it exceeds `1 / 10` by
`2 / (10 * 2 ^ 55)`). This definition truncates the exact product
`n * 3602879701896397 / 2 ^ 55` toward zero, exactly as `int()`
truncates the float product, and agrees with the code for all
`|n| ≤ 2 ^ 52`: in that range `n` converts to double exactly and
rounding the product to the nearest double cannot cross an integer.
(The first natural number where the doubly rounded float differs from
this definition is 6755399441055749 — read as megabytes, about 6.4
zettabytes, far beyond anything the script's int64 byte-count source
for `total_megs` can produce.) -/
def pyTenthI (n : Int) : Int :=
  Int.tdiv (n * 3602879701896397) 36028797018963968

/-- The return expression of `GetDiskSize`:
`(total_megs, min(swap_megs, int(total_megs * 0.1)))`. -/
def diskSizeReturn (totalMegs swapMegs : Int) : Int × Int :=
  (totalMegs, min swapMegs (pyTenthI totalMegs))

/-- One iteration of `GetDiskSize`'s swap loop on a line of `swapon -s`
output: `words = line.split()`, then — inside the `try` —
`size_kb = int(words[2])` and `swap_megs += size_kb / 1024`. A line
with fewer than three fields makes `words[2]` raise `IndexError`, which
the `except ValueError` handler does not catch; a third field that
`int()` rejects raises `ValueError`, which is caught and skips the
line. Python 2 `/` on ints floors, hence `Int.fdiv`. -/
def swapLineStep (acc : Int) (line : String) : Except PyExc Int :=
  let words := pySplitWs line
  match words.get? 2 with
  | none => Except.error PyExc.indexError
  | some w =>
    match pyInt w with
    | none => Except.ok acc
    | some sizeKb => Except.ok (acc + Int.fdiv sizeKb 1024)

/-- The swap half of `GetDiskSize`: fold the loop body over
`swap_output.splitlines()[1:]` (the first line is the header),
starting from `swap_megs = 0`. -/
def swapMegsOf (swapOutput : String) : Except PyExc Int :=
  ((pySplitlines swapOutput).drop 1).foldlM swapLineStep 0

/-- `GetDiskSize(client)`, as a function of the stdout lines of the
remote `blockdev --getsize64 /dev/xvda` and of the local `swapon -s`
output. The first `blockdev` line that is nonempty after stripping is
parsed inside the loop (so a non-numeric first nonempty line raises
`ValueError` right there); if no such line exists, the unassigned
`total_megs` is only noticed at the `return` statement — after the swap
section has run — as a `NameError`. Bytes become megabytes by Python 2
floor division by `1024 * 1024`. -/
def getDiskSize (blockdevLines : List String) (swapOutput : String) :
    Except PyExc (Int × Int) := do
  let totalMegs? ←
    match blockdevLines.find? (fun l => !(pyStrip l).data.isEmpty) with
    | none => pure (none : Option Int)
    | some l =>
      match pyInt (pyStrip l) with
      | none => Except.error PyExc.valueError
      | some v => pure (some (Int.fdiv v (1024 * 1024)))
  let swapMegs ← swapMegsOf swapOutput
  match totalMegs? with
  | none => Except.error PyExc.nameError
  | some totalMegs => pure (diskSizeReturn totalMegs swapMegs)

/-- A filesystem entry visible to `os.path`: its absolute path and
whether it is a directory (`false` means a regular file or other
non-directory object). -/
structure FsEntry where
  path : String
  isDir : Bool
  deriving DecidableEq, Repr

/-- `os.path.exists(p)`: true when an entry of any kind has path `p`. -/
def pathExists (fs : List FsEntry) (p : String) : Bool :=
  fs.any (fun e => e.path = p)

/-- `os.path.join` for two POSIX components: an absolute second
component discards the first; otherwise a `/` separator is inserted
unless one is already there. -/
def pjoin (a b : String) : String :=
  if b.data.head? = some '/' then b
  else if a.data = [] || a.data.getLast? = some '/' then a ++ b
  else a ++ "/" ++ b

/-- `VerifyKernelMatches(client)`: strips the remote `uname -r` output
and tests `os.path.exists` on
`os.path.join(SOURCE_MOUNT, "lib", "modules", kernel)`. The code calls
`os.path.exists`, which any kind of entry satisfies, although its
docstring asks for the name of a directory. -/
def verifyKernelMatches (fs : List FsEntry) (unameOutput : String) : Bool :=
  let kernel := pyStrip unameOutput
  pathExists fs (pjoin (pjoin (pjoin SOURCE_MOUNT "lib") "modules") kernel)

/-- The command sent by `RunFixScripts`. -/
def fixScriptsCommand : String := "run-parts /usr/lib/ganeti/fixes"

/-- The command sent by `ShutDownTarget`. -/
def poweroffCommand : String := "poweroff"

/-- The run's environment: everything outside the script that
determines its control flow once `main` has its three arguments.
Boolean fields are success flags of the corresponding external actions
(`connectOk` for the SSH connect, `mountOk`/`umountOk`/`transferOk` for
the local `mount`/`umount`/`rsync` subprocesses), `…Status` fields are
remote exit statuses, and the string/list fields are command outputs
and the local filesystem visible under the source mount. In a real run
`umountOk` can only be true if something is mounted at `SOURCE_MOUNT`,
but the environment leaves it free. -/
structure World where
  rootDev : String
  uid : Nat
  keyLoadOk : Bool
  keyEncrypted : Bool
  connectOk : Bool
  mountOk : Bool
  fs : List FsEntry
  unameOutput : String
  blockdevLines : List String
  swapOutput : String
  partEnv : PartEnv
  transferOk : Bool
  fixStatus : Int
  poweroffStatus : Int
  umountOk : Bool
  finalCleanupStatus : Int
  deriving Repr

/-- How the process ends: a normal return from `main` (exit code 0),
`sys.exit(code)`, or an exception escaping uncaught (the interpreter
dies with a traceback and OS status 1). -/
inductive Outcome where
  | normal
  | exited (code : Nat)
  | uncaught (e : PyExc)
  deriving DecidableEq, Repr

/-- The operating-system exit status resulting from an `Outcome`. -/
def osExitCode : Outcome → Nat
  | Outcome.normal => 0
  | Outcome.exited c => c
  | Outcome.uncaught _ => 1

/-- What has happened by the time control leaves the inner `try` suite
of `main`: the exception in flight (if any), what was printed, and
which milestones ran. `connectCalls` counts invocations of
`EstablishConnection`; `sessionEstablished` says whether `client` was
assigned a live session (is not `None`). -/
structure BodyOut where
  raised : Option PyExc
  printedBody : List String
  mounted : Bool
  connectCalls : Nat
  sessionEstablished : Bool
  partitionAttempted : Bool
  partChainAttempts : Nat
  partCleanupRuns : Nat
  transferAttempted : Bool
  fixAttempted : Bool
  shutdownAttempted : Bool
  deriving Repr

/-- The inner `try` suite of `main`, before the `except P2VError`
handler: privilege check, `LoadSSHKey`, `EstablishConnection`,
`MountSourceFilesystems`, the kernel check, then `GetDiskSize`,
`PartitionTargetDisks`, `TransferFiles`, `RunFixScripts`,
`ShutDownTarget`, stopping at the first exception. `LoadSSHKey` turns
its failures into `P2VError`; a failed connect raises a
paramiko/socket error instead; `MountSourceFilesystems` and
`TransferFiles` print and call `sys.exit(1)` directly. -/
def mainBody (w : World) : BodyOut :=
  if w.uid ≠ 0 then
    ⟨some (PyExc.p2v "Must be run as root"), [], false, 0, false, false, 0, 0,
     false, false, false⟩
  else if !w.keyLoadOk then
    ⟨some (PyExc.p2v (if w.keyEncrypted then "Why is the private key file encrypted?"
                      else "Key file is missing or invalid")),
     [], false, 0, false, false, 0, 0, false, false, false⟩
  else if !w.connectOk then
    ⟨some PyExc.sshError, [], false, 1, false, false, 0, 0, false, false, false⟩
  else if !w.mountOk then
    ⟨some (PyExc.systemExit 1), ["Error mounting " ++ w.rootDev], false, 1, true,
     false, 0, 0, false, false, false⟩
  else if verifyKernelMatches w.fs w.unameOutput then
    match getDiskSize w.blockdevLines w.swapOutput with
    | Except.error e =>
      ⟨some e, [], true, 1, true, false, 0, 0, false, false, false⟩
    | Except.ok (totalMegs, swapMegs) =>
      let pt := partitionTargetDisks totalMegs swapMegs w.partEnv
      match pt.result with
      | Except.error e =>
        ⟨some e, [], true, 1, true, true, pt.chainAttempts, pt.cleanupRuns,
         false, false, false⟩
      | Except.ok () =>
        if !w.transferOk then
          ⟨some (PyExc.systemExit 1), ["Error using rsync to transfer files"],
           true, 1, true, true, pt.chainAttempts, pt.cleanupRuns, true, false, false⟩
        else
          match runCommandAndWait fixScriptsCommand w.fixStatus with
          | Except.error e =>
            ⟨some e, [], true, 1, true, true, pt.chainAttempts, pt.cleanupRuns,
             true, true, false⟩
          | Except.ok () =>
            match runCommandAndWait poweroffCommand w.poweroffStatus with
            | Except.error e =>
              ⟨some e, [], true, 1, true, true, pt.chainAttempts, pt.cleanupRuns,
               true, true, true⟩
            | Except.ok () =>
              ⟨none, [], true, 1, true, true, pt.chainAttempts, pt.cleanupRuns,
               true, true, true⟩
  else
    ⟨some (PyExc.p2v "Instance kernel not present on source OS"), [], true, 1, true,
     false, 0, 0, false, false, false⟩

/-- The `except P2VError` handler of `main`: prints the error's message
and calls `sys.exit(1)`. Exceptions of any other kind pass through
unhandled. -/
def exceptClause (b : BodyOut) : BodyOut :=
  match b.raised with
  | some (PyExc.p2v msg) =>
    { b with raised := some (PyExc.systemExit 1),
             printedBody := b.printedBody ++ [msg] }
  | _ => b

/-- Observable result of a whole run of `main`. `closeCalls` counts
calls to `client.close()`. -/
structure RunResult where
  printed : List String
  outcome : Outcome
  mounted : Bool
  unmountAttempted : Bool
  connectCalls : Nat
  sessionEstablished : Bool
  closeCalls : Nat
  finalCleanupAttempted : Bool
  partitionAttempted : Bool
  transferAttempted : Bool
  fixAttempted : Bool
  shutdownAttempted : Bool
  deriving Repr

/-- Outcome of the process once the pending exception (if any) escapes
`main`. -/
def pendingOutcome : Option PyExc → Outcome
  | none => Outcome.normal
  | some (PyExc.systemExit c) => Outcome.exited c
  | some e => Outcome.uncaught e

/-- The second statement of the `finally` suite:
`if client: CleanUpTarget(client)`. A `P2VError` raised here replaces
the pending exception and escapes `main` uncaught. `closeCalls` is 0
on every path because the script never calls `client.close()` — the
only `close` in the source is `stdout.close()` on a channel stream
inside `GetDiskSize`, which does not end the session. -/
def finallyCleanup (w : World) (b : BodyOut) (unmountAttempted : Bool) : RunResult :=
  if b.sessionEstablished then
    match cleanUpTargetCmd w.finalCleanupStatus with
    | Except.error e =>
      ⟨b.printedBody, Outcome.uncaught e, b.mounted, unmountAttempted,
       b.connectCalls, b.sessionEstablished, 0, true, b.partitionAttempted,
       b.transferAttempted, b.fixAttempted, b.shutdownAttempted⟩
    | Except.ok () =>
      ⟨b.printedBody, pendingOutcome b.raised, b.mounted, unmountAttempted,
       b.connectCalls, b.sessionEstablished, 0, true, b.partitionAttempted,
       b.transferAttempted, b.fixAttempted, b.shutdownAttempted⟩
  else
    ⟨b.printedBody, pendingOutcome b.raised, b.mounted, unmountAttempted,
     b.connectCalls, b.sessionEstablished, 0, false, b.partitionAttempted,
     b.transferAttempted, b.fixAttempted, b.shutdownAttempted⟩

/-- The `finally` suite of `main`. When the run got past the privilege
check (`uid == 0`), `UnmountSourceFilesystems()` runs first — whether or
not the mount ever happened, since the guard is on `uid` alone. If the
`umount` fails, the function prints and calls `sys.exit(1)`; that
exception, raised inside `finally`, replaces the pending one and aborts
the rest of the suite, so `CleanUpTarget` is skipped on that path. -/
def finallyStep (w : World) (b : BodyOut) : RunResult :=
  if w.uid = 0 then
    if !w.umountOk then
      ⟨b.printedBody ++ ["Error unmounting " ++ SOURCE_MOUNT], Outcome.exited 1,
       b.mounted, true, b.connectCalls, b.sessionEstablished, 0, false,
       b.partitionAttempted, b.transferAttempted, b.fixAttempted,
       b.shutdownAttempted⟩
    else
      finallyCleanup w b true
  else
    finallyCleanup w b false

/-- `main(argv)` after successful argument parsing: the inner `try`
suite, its `except P2VError` handler, then the `finally` suite. -/
def mainRun (w : World) : RunResult :=
  finallyStep w (exceptClause (mainBody w))

/-- An environment where the privilege check passes but the private key
fails to load; nothing is mounted and no session is established, and
the `umount` that could only fail is indeed failing. -/
def keyFailWorld : World :=
  ⟨"/dev/sda1", 0, false, false, false, false, [], "", [], "", ⟨0, 0, 0, 0⟩,
   false, 0, 0, false, 0⟩

/-- An environment in which the whole pipeline succeeds, parameterized
by the outcome of the terminal source unmount and of the terminal
target cleanup: a matching kernel-modules directory, a 10 GB target
disk, 1000 MB of source swap, and every command exiting 0. -/
def happyWorld (umountSucceeds : Bool) (finalCleanupStatus : Int) : World :=
  ⟨"/dev/sda1", 0, true, false, true, true,
   [⟨"/source/lib/modules/3.2.0-4-amd64", true⟩], "3.2.0-4-amd64\n",
   ["10485760000\n"],
   "Filename  Type  Size  Used  Priority\n/dev/sda2  partition  1024000  0  -1",
   ⟨0, 0, 0, 0⟩, true, 0, 0, umountSucceeds, finalCleanupStatus⟩

/-- An environment identical to `happyWorld` except that the source
filesystem has no modules directory for the bootstrap kernel, so the
kernel check returns false; parameterized by the unmount outcome. -/
def kernelMismatchWorld (umountSucceeds : Bool) : World :=
  ⟨"/dev/sda1", 0, true, false, true, true, [], "3.2.0-4-amd64\n",
   ["10485760000\n"],
   "Filename  Type  Size  Used  Priority\n/dev/sda2  partition  1024000  0  -1",
   ⟨0, 0, 0, 0⟩, true, 0, 0, umountSucceeds, 0⟩

/-- Claim C8, counterexample: the `P2VError` raised by
`_RunCommandAndWait` does not carry the numeric exit status — two runs
of the same command with different nonzero exit statuses raise literally
identical exceptions (the message interpolates only the command), so the
exception cannot determine the status, contradicting the claim that it
carries both the command string and the numeric exit status. -/
theorem C8_counterexample :
    runCommandAndWait "poweroff" 1 = runCommandAndWait "poweroff" 2 ∧
    runCommandAndWait "poweroff" 1 ≠ Except.ok () := by
  refine ⟨rfl, ?_⟩
  simp [runCommandAndWait]

/-- Claim C8, amended: `_RunCommandAndWait` raises `P2VError` carrying
the command string (but not the exit status) exactly when the remote
exit status is nonzero, and returns normally on status zero. -/
theorem C8_amended (command : String) (exitStatus : Int) :
    runCommandAndWait command exitStatus =
      if exitStatus = 0 then Except.ok ()
      else Except.error (PyExc.p2v (remoteFailMsg command)) := by
  unfold runCommandAndWait
  by_cases h : exitStatus = 0 <;> simp [h]

/-- Claim C2, counterexample: starting from a fully set-up target
(mounted, directory present), the first `CleanUpTarget` succeeds, but
the second one — acting on the already-clean target — raises, because
the trailing `rmdir` of the `;`-joined chain fails on the now-absent
directory and its status is the chain's exit status. This contradicts
the claim that the second invocation completes without raising. -/
theorem C2_counterexample :
    (cleanUpTargetState ⟨true, true⟩).2 = Except.ok () ∧
    (cleanUpTargetState (cleanUpTargetState ⟨true, true⟩).1).2 =
      Except.error (PyExc.p2v (remoteFailMsg cleanupCommand)) :=
  ⟨rfl, rfl⟩

/-- Claim C2, amended: `CleanUpTarget` always leaves the target clean
(unmounted, directory removed) — in that sense repetition is harmless
and the run can be repeated from scratch — but a second invocation on
the already-clean target always raises `P2VError`, because the
non-short-circuiting `;` only guarantees both sub-commands run, while
the chain's exit status is the failing trailing `rmdir`'s. -/
theorem C2_amended (s : TargetState) :
    (cleanUpTargetState s).1 = ⟨false, false⟩ ∧
    (cleanUpTargetState (cleanUpTargetState s).1).1 = (cleanUpTargetState s).1 ∧
    (cleanUpTargetState (cleanUpTargetState s).1).2 =
      Except.error (PyExc.p2v (remoteFailMsg cleanupCommand)) := by
  rcases s with ⟨m, d⟩
  cases m <;> cases d <;> exact ⟨rfl, rfl, rfl⟩

/-- Claim C3: in `PartitionTargetDisks`, after a successful `sfdisk`, a
failure of the combined chain triggers cleanup and exactly one retry of
the identical chain: if the retry succeeds the call returns normally
after two chain executions; if the retry also fails, `P2VError` for the
chain propagates after exactly two executions (one retry), with cleanup
having run once. -/
theorem C3_retry (totalMegs swapMegs : Int) (env : PartEnv)
    (hsf : env.sfdiskStatus = 0) (hcl : env.cleanupStatus = 0)
    (h1 : env.chainStatus1 ≠ 0) :
    (env.chainStatus2 = 0 →
      partitionTargetDisks totalMegs swapMegs env = ⟨Except.ok (), 2, 1⟩) ∧
    (env.chainStatus2 ≠ 0 →
      partitionTargetDisks totalMegs swapMegs env =
        ⟨Except.error (PyExc.p2v (remoteFailMsg chainCommand)), 2, 1⟩) := by
  constructor <;> intro h2 <;>
    simp [partitionTargetDisks, runCommandAndWait, cleanUpTargetCmd, hsf, hcl, h1, h2]

/-- Claim C3, witness: concrete environments exercising both branches
(first chain failure, successful cleanup, then success resp. failure). -/
theorem C3_retry_witness :
    partitionTargetDisks 10000 500 ⟨0, 1, 0, 0⟩ = ⟨Except.ok (), 2, 1⟩ ∧
    partitionTargetDisks 10000 500 ⟨0, 1, 0, 1⟩ =
      ⟨Except.error (PyExc.p2v (remoteFailMsg chainCommand)), 2, 1⟩ :=
  ⟨(C3_retry 10000 500 ⟨0, 1, 0, 0⟩ rfl rfl (by decide)).1 rfl,
   (C3_retry 10000 500 ⟨0, 1, 0, 1⟩ rfl rfl (by decide)).2 (by decide)⟩

/-- Claim C10: if the initial `sfdisk` command itself fails, its
`P2VError` propagates immediately: the combined chain is never executed
and `CleanUpTarget` is never invoked — the one-retry policy applies only
to the combined format/mount chain. -/
theorem C10_sfdisk_no_retry (totalMegs swapMegs : Int) (env : PartEnv)
    (h : env.sfdiskStatus ≠ 0) :
    partitionTargetDisks totalMegs swapMegs env =
      ⟨Except.error (PyExc.p2v (remoteFailMsg (sfdiskCommand (totalMegs - swapMegs)))),
       0, 0⟩ := by
  simp [partitionTargetDisks, runCommandAndWait, h]

/-- Claim C10, witness: a failing `sfdisk` at a concrete input. -/
theorem C10_sfdisk_no_retry_witness :
    partitionTargetDisks 10000 500 ⟨1, 0, 0, 0⟩ =
      ⟨Except.error (PyExc.p2v (remoteFailMsg (sfdiskCommand 9500))), 0, 0⟩ :=
  C10_sfdisk_no_retry 10000 500 ⟨1, 0, 0, 0⟩ (by decide)

/-- On natural numbers up to `2 ^ 52`, the script's float-based ten
percent (`int(n * 0.1)`) coincides with exact floor division by ten. -/
theorem pyTenthI_coe_nat (m : Nat) (h : m ≤ 2 ^ 52) :
    pyTenthI (m : Int) = Int.fdiv (m : Int) 10 := by
  have hbound : m ≤ 4503599627370496 := le_trans h (by norm_num)
  have hnat : m * 3602879701896397 / 36028797018963968 = m / 10 := by omega
  have h1 : ((m : Int) * 3602879701896397) = ((m * 3602879701896397 : Nat) : Int) := by
    push_cast
    ring
  have h2 : ((36028797018963968 : Int)) = ((36028797018963968 : Nat) : Int) := by
    norm_cast
  have h3 : ((10 : Int)) = ((10 : Nat) : Int) := by norm_cast
  unfold pyTenthI
  rw [h1, h2, h3, ← Int.ofNat_tdiv, ← Int.ofNat_fdiv, hnat]

/-- Claim C4: for `0 ≤ swap ≤ total` (with `total` at most `2 ^ 52`,
the range on which the double computation `int(total * 0.1)` is exact —
every value the script can actually produce from an int64 byte count is
below `2 ^ 43`), `GetDiskSize`'s return expression yields
`(total, min(swap, floor(total * 0.1)))`, where `Int.fdiv total 10` is
exactly `floor(total * 0.1)`; consequently the returned swap value is
nonnegative, at most `floor(total * 0.1)`, and at most the source swap
total. -/
theorem C4_swap_cap (total swap : Int)
    (htotal0 : 0 ≤ total) (hswap0 : 0 ≤ swap) (hle : swap ≤ total)
    (hbound : total ≤ 2 ^ 52) :
    diskSizeReturn total swap = (total, min swap (Int.fdiv total 10)) ∧
    0 ≤ (diskSizeReturn total swap).2 ∧
    (diskSizeReturn total swap).2 ≤ Int.fdiv total 10 ∧
    (diskSizeReturn total swap).2 ≤ swap := by
  obtain ⟨m, rfl⟩ := Int.eq_ofNat_of_zero_le htotal0
  have hm : m ≤ 2 ^ 52 := by exact_mod_cast hbound
  have hten := pyTenthI_coe_nat m hm
  have hdiv0 : (0 : Int) ≤ Int.fdiv (m : Int) 10 :=
    Int.fdiv_nonneg (by positivity) (by norm_num)
  refine ⟨?_, ?_, ?_, ?_⟩
  · unfold diskSizeReturn
    rw [hten]
  · unfold diskSizeReturn
    simp only [hten]
    exact le_min hswap0 hdiv0
  · unfold diskSizeReturn
    simp only [hten]
    exact min_le_right _ _
  · unfold diskSizeReturn
    simp only [hten]
    exact min_le_left _ _

/-- Claim C4, witness: a 10 GB target and 500 MB of source swap. -/
theorem C4_swap_cap_witness :
    diskSizeReturn 10000 500 = (10000, min 500 (Int.fdiv 10000 10)) ∧
    0 ≤ (diskSizeReturn 10000 500).2 ∧
    (diskSizeReturn 10000 500).2 ≤ Int.fdiv 10000 10 ∧
    (diskSizeReturn 10000 500).2 ≤ 500 :=
  C4_swap_cap 10000 500 (by norm_num) (by norm_num) (by norm_num) (by norm_num)

/-- Claim C5 fails on the code: the swap loop of `GetDiskSize` only
catches `ValueError`, so on a data line with fewer than three
whitespace-delimited fields the lookup `words[2]` raises an uncaught
`IndexError` instead of skipping the line (first conjunct). A line
whose third field is non-numeric is skipped silently, and well-formed
lines are summed with per-line kilobyte-to-megabyte floor division, as
claimed (remaining conjuncts). -/
theorem C5_short_line_crash :
    swapMegsOf "Filename  Type  Size  Used  Priority\n/dev/sda2  partition" =
      Except.error PyExc.indexError ∧
    swapMegsOf "Filename  Type  Size  Used  Priority\n/dev/sda2  partition  bad  0  -1" =
      Except.ok 0 ∧
    swapMegsOf
        "Filename  Type  Size  Used  Priority\n/dev/sda2  partition  2096124  0  -1\n/dev/sdb2  partition  1023  0  -2" =
      Except.ok 2046 :=
  ⟨rfl, rfl, rfl⟩

/-- Claim C6 fails on the code: `VerifyKernelMatches` tests
`os.path.exists`, not `os.path.isdir`, so a regular file named like the
kernel release makes it return `true` even though no directory of that
name exists (first conjunct) — contradicting both the claim and the
function's own docstring. A mismatch is a plain `false` with no
exception (second conjunct), and a present modules directory gives
`true` (third conjunct), as claimed. -/
theorem C6_exists_not_isdir :
    verifyKernelMatches [⟨"/source/lib/modules/3.2.0-4-amd64", false⟩]
      "3.2.0-4-amd64\n" = true ∧
    verifyKernelMatches [⟨"/source/lib/modules/3.2.0-4-amd64", true⟩]
      "2.6.32-5-amd64\n" = false ∧
    verifyKernelMatches [⟨"/source/lib/modules/3.2.0-4-amd64", true⟩]
      "3.2.0-4-amd64\n" = true :=
  ⟨rfl, rfl, rfl⟩

/-- Whatever happens inside the `try` suite, `main` establishes a
session exactly when the privilege check, the key load and the connect
all succeed. -/
theorem mainBody_session (w : World) :
    (mainBody w).sessionEstablished =
      (decide (w.uid = 0) && (w.keyLoadOk && w.connectOk)) := by
  unfold mainBody
  try dsimp only
  (repeat' split) <;> simp_all

/-- `EstablishConnection` is invoked at most once per run. -/
theorem mainBody_connectCalls (w : World) : (mainBody w).connectCalls ≤ 1 := by
  unfold mainBody
  try dsimp only
  (repeat' split) <;> simp

/-- The `except P2VError` handler changes only the exception in flight
and the print log; every milestone flag survives it unchanged. -/
theorem exceptClause_milestones (b : BodyOut) :
    (exceptClause b).mounted = b.mounted ∧
    (exceptClause b).connectCalls = b.connectCalls ∧
    (exceptClause b).sessionEstablished = b.sessionEstablished ∧
    (exceptClause b).partitionAttempted = b.partitionAttempted ∧
    (exceptClause b).transferAttempted = b.transferAttempted ∧
    (exceptClause b).fixAttempted = b.fixAttempted ∧
    (exceptClause b).shutdownAttempted = b.shutdownAttempted := by
  unfold exceptClause
  cases hr : b.raised with
  | none => simp
  | some e => cases e <;> simp

/-- The `finally` suite reports the session flag of the body
unchanged. -/
theorem mainRun_session (w : World) :
    (mainRun w).sessionEstablished = (mainBody w).sessionEstablished := by
  have hm := exceptClause_milestones (mainBody w)
  unfold mainRun finallyStep finallyCleanup
  try dsimp only
  (repeat' split) <;> simp_all

/-- Claim C1, counterexample: with root privilege but a failing key
load, nothing was ever mounted and yet the terminal source unmount is
attempted (first two conjuncts) — the `finally` guard is `uid == 0`,
not "was mounted". And on a fully successful pipeline whose terminal
`umount` fails, a session was established and the source was mounted,
yet Target Cleanup never runs (last three conjuncts) — the
`sys.exit(1)` inside `UnmountSourceFilesystems` aborts the `finally`
suite. Both halves contradict the claim as stated. -/
theorem C1_counterexample :
    (mainRun keyFailWorld).mounted = false ∧
    (mainRun keyFailWorld).unmountAttempted = true ∧
    (mainRun (happyWorld false 0)).mounted = true ∧
    (mainRun (happyWorld false 0)).sessionEstablished = true ∧
    (mainRun (happyWorld false 0)).finalCleanupAttempted = false :=
  ⟨rfl, rfl, rfl, rfl, rfl⟩

/-- Claim C1, amended: on every run of `main`, the terminal source
unmount is attempted exactly when the privilege check passed
(`uid == 0`), whether or not the mount ever happened; and Target
Cleanup runs exactly when a session was established (privilege, key
load and connect all succeeded) and the source unmount did not fail —
an unmount failure exits immediately and skips Target Cleanup. -/
theorem C1_amended (w : World) :
    ((mainRun w).unmountAttempted = true ↔ w.uid = 0) ∧
    ((mainRun w).sessionEstablished = true ↔
      (w.uid = 0 ∧ w.keyLoadOk = true ∧ w.connectOk = true)) ∧
    ((mainRun w).finalCleanupAttempted = true ↔
      (w.uid = 0 ∧ w.keyLoadOk = true ∧ w.connectOk = true ∧ w.umountOk = true)) := by
  have hs : (mainRun w).sessionEstablished =
      (decide (w.uid = 0) && (w.keyLoadOk && w.connectOk)) := by
    rw [mainRun_session, mainBody_session]
  have hms := mainBody_session w
  have hm := exceptClause_milestones (mainBody w)
  refine ⟨?_, ?_, ?_⟩
  · unfold mainRun finallyStep finallyCleanup
    (repeat' split) <;> simp_all
  · rw [hs]
    simp [and_assoc]
  · unfold mainRun finallyStep finallyCleanup
    (repeat' split) <;> simp_all

/-- Claim C9, counterexample: a fully successful run finishes normally
with a session having been established, and the number of
`client.close()` calls is zero, not one — the script never closes the
session; it is only torn down by process exit. -/
theorem C9_counterexample :
    (mainRun (happyWorld true 0)).outcome = Outcome.normal ∧
    (mainRun (happyWorld true 0)).sessionEstablished = true ∧
    (mainRun (happyWorld true 0)).closeCalls = 0 :=
  ⟨rfl, rfl, rfl⟩

/-- Claim C9, amended: every run establishes at most one session
(`EstablishConnection` is invoked at most once), and the orchestrator
never explicitly closes it — the session is released only by process
termination. -/
theorem C9_amended (w : World) :
    (mainRun w).connectCalls ≤ 1 ∧ (mainRun w).closeCalls = 0 := by
  have hc := mainBody_connectCalls w
  have hm := exceptClause_milestones (mainBody w)
  unfold mainRun finallyStep finallyCleanup
  try dsimp only
  (repeat' split) <;> simp_all

/-- Claim C7, counterexample: a run whose kernel check returns false
and whose terminal source unmount fails prints the mismatch, exits 1,
but never runs Target Cleanup even though a session was established —
contradicting the claim that every kernel-mismatch run performs Target
Cleanup. -/
theorem C7_counterexample :
    verifyKernelMatches (kernelMismatchWorld false).fs
      (kernelMismatchWorld false).unameOutput = false ∧
    (mainRun (kernelMismatchWorld false)).sessionEstablished = true ∧
    (mainRun (kernelMismatchWorld false)).unmountAttempted = true ∧
    (mainRun (kernelMismatchWorld false)).finalCleanupAttempted = false :=
  ⟨rfl, rfl, rfl, rfl⟩

/-- Claim C7, amended: whenever the pipeline reaches the kernel check
and it returns false, the run prints the kernel-mismatch message, ends
with OS exit status 1, never attempts partitioning, transfer, fix
scripts or shutdown, and attempts the source unmount; Target Cleanup
runs if and only if that unmount succeeds. -/
theorem C7_amended (w : World)
    (huid : w.uid = 0) (hkey : w.keyLoadOk = true) (hconn : w.connectOk = true)
    (hmount : w.mountOk = true)
    (hker : verifyKernelMatches w.fs w.unameOutput = false) :
    "Instance kernel not present on source OS" ∈ (mainRun w).printed ∧
    osExitCode (mainRun w).outcome = 1 ∧
    (mainRun w).partitionAttempted = false ∧
    (mainRun w).transferAttempted = false ∧
    (mainRun w).fixAttempted = false ∧
    (mainRun w).shutdownAttempted = false ∧
    (mainRun w).unmountAttempted = true ∧
    ((mainRun w).finalCleanupAttempted = true ↔ w.umountOk = true) := by
  have hbody : mainBody w =
      ⟨some (PyExc.p2v "Instance kernel not present on source OS"), [], true, 1,
       true, false, 0, 0, false, false, false⟩ := by
    unfold mainBody
    simp [huid, hkey, hconn, hmount, hker]
  by_cases hum : w.umountOk = true
  · by_cases hst : w.finalCleanupStatus = 0 <;>
      simp [mainRun, hbody, exceptClause, finallyStep, finallyCleanup,
            pendingOutcome, osExitCode, cleanUpTargetCmd, runCommandAndWait,
            huid, hum, hst]
  · simp [mainRun, hbody, exceptClause, finallyStep, finallyCleanup,
          pendingOutcome, osExitCode, huid, hum]

/-- Claim C7, witness: the kernel-mismatch environment with a
succeeding terminal unmount. -/
theorem C7_amended_witness :
    "Instance kernel not present on source OS" ∈
      (mainRun (kernelMismatchWorld true)).printed ∧
    osExitCode (mainRun (kernelMismatchWorld true)).outcome = 1 ∧
    (mainRun (kernelMismatchWorld true)).partitionAttempted = false ∧
    (mainRun (kernelMismatchWorld true)).transferAttempted = false ∧
    (mainRun (kernelMismatchWorld true)).fixAttempted = false ∧
    (mainRun (kernelMismatchWorld true)).shutdownAttempted = false ∧
    (mainRun (kernelMismatchWorld true)).unmountAttempted = true ∧
    ((mainRun (kernelMismatchWorld true)).finalCleanupAttempted = true ↔
      (kernelMismatchWorld true).umountOk = true) :=
  C7_amended (kernelMismatchWorld true) rfl rfl rfl rfl rfl

end P2VTransfer
